import Mathlib

/-!
Shallow embedding of the reset-detector module of `antigravity-usage`
(`src/wakeup/reset-detector.ts`), together with theorems settling the
specification claims about it.

Conventions of the embedding:
* a JS `number` that holds a quota fraction becomes `ℚ`;
* a field that may be `undefined` becomes `Option _`;
* the JS truthiness test `!s` on a `string | undefined` is `strOptTruthy`
  (false exactly on `undefined` and on the empty string);
* the stateful orchestration function `detectResetAndTrigger` becomes a pure
  function over an explicit environment (`WakeupEnv`) that supplies the
  results of its external collaborators (config loading, account resolution,
  the persisted state store, quota fetching, trigger execution), and returns
  the final store together with traces of the effects it performed.
-/

namespace AntigravityUsage

/-- One model's quota state at fetch time (`ModelQuotaInfo` in
`src/quota/types.ts`, fields as used by the detector and its tests). -/
structure ModelQuotaInfo where
  label : String
  modelId : String
  remainingPercentage : Option ℚ
  isExhausted : Bool
  resetTime : Option String
  timeUntilResetMs : Option ℚ
deriving DecidableEq

/-- One fetch result (`QuotaSnapshot` in `src/quota/types.ts`). -/
structure QuotaSnapshot where
  timestamp : String
  method : String
  models : List ModelQuotaInfo
deriving DecidableEq

/-- JS truthiness of a `string | undefined` value: `undefined` and the empty
string are falsy, every other string is truthy. -/
def strOptTruthy : Option String → Bool
  | none => false
  | some s => !(s == "")

/-- `FULL_QUOTA_THRESHOLD` from `reset-detector.ts`: the quota counts as full
when `remainingPercentage` (a fraction in 0..1) is at least `0.99`. -/
def FULL_QUOTA_THRESHOLD : ℚ := 99 / 100

/-- `isModelUnused(model, previousSnapshot)` from `reset-detector.ts`:
a model is unused when it has quota data, its quota is full (at least the
threshold), it has a (truthy) reset time, and either no previous snapshot
exists, or the previous snapshot has no entry with its `modelId`, or that
entry's `resetTime` differs from the model's current one. -/
def isModelUnused (model : ModelQuotaInfo) (previousSnapshot : Option QuotaSnapshot) : Bool :=
  match model.remainingPercentage with
  | none => false
  | some p =>
    if p < FULL_QUOTA_THRESHOLD then
      false
    else if strOptTruthy model.resetTime = false then
      false
    else
      match previousSnapshot with
      | none => true
      | some prev =>
        match prev.models.find? (fun m => m.modelId == model.modelId) with
        | none => true
        | some previousModel =>
          if model.resetTime == previousModel.resetTime then false else true

/-- `findUnusedModels(snapshot, previousSnapshot)` from `reset-detector.ts`:
`snapshot.models.filter(m => isModelUnused(m, previousSnapshot))`. -/
def findUnusedModels (snapshot : QuotaSnapshot) (previousSnapshot : Option QuotaSnapshot) :
    List ModelQuotaInfo :=
  snapshot.models.filter (fun m => isModelUnused m previousSnapshot)

/-- `hasUnusedModels(snapshot, previousSnapshot)` from `reset-detector.ts`:
`snapshot.models.some(m => isModelUnused(m, previousSnapshot))`. -/
def hasUnusedModels (snapshot : QuotaSnapshot) (previousSnapshot : Option QuotaSnapshot) :
    Bool :=
  snapshot.models.any (fun m => isModelUnused m previousSnapshot)

/-- The wake-up configuration consumed by `detectResetAndTrigger`
(`loadWakeupConfig` result): enabled flag, selected accounts, selected
models, and trigger options. -/
structure WakeupConfig where
  enabled : Bool
  selectedAccounts : List String
  selectedModels : List String
  customPrompt : Option String
  maxOutputTokens : Option Nat
deriving DecidableEq

/-- The argument record passed to `executeTrigger` in `detectResetAndTrigger`. -/
structure TriggerRequest where
  models : List String
  accountEmail : String
  triggerType : String
  triggerSource : String
  customPrompt : Option String
  maxOutputTokens : Option Nat
deriving DecidableEq

/-- One per-model outcome inside an `executeTrigger` result. -/
structure TriggerOutcomeItem where
  success : Bool
deriving DecidableEq

/-- The result record returned by `executeTrigger`. -/
structure TriggerExecResult where
  results : List TriggerOutcomeItem
deriving DecidableEq

/-- The `DetectionResult` returned by `detectResetAndTrigger`
(`src/wakeup/types.ts`). -/
structure DetectionResult where
  triggered : Bool
  triggeredModels : List String
deriving DecidableEq

/-- Environment supplying the results of `detectResetAndTrigger`'s external
collaborators.  `fetchQuota` is keyed by the account email because the code
sets that account active before calling `fetchQuota('google')`; a thrown
exception from the fetch (or from the trigger call) is an `Except.error`. -/
structure WakeupEnv where
  loadWakeupConfig : Option WakeupConfig
  resolveAccounts : List String → List String
  initialState : String → Option QuotaSnapshot
  fetchQuota : String → Except String QuotaSnapshot
  executeTrigger : TriggerRequest → Except String TriggerExecResult
  originalActiveEmail : Option String

/-- Mutable state threaded through the per-account loop of
`detectResetAndTrigger`, plus traces of the effects performed:
`store` is the persisted wake-up state (`loadWakeupState`/`saveWakeupState`),
`fetches` records each `fetchQuota` call, `saves` each `saveWakeupState`
call, `triggerCalls` each `executeTrigger` call, and `activeSets` each
`accountManager.setActiveAccount` call. -/
structure LoopState where
  store : String → Option QuotaSnapshot
  anyTriggered : Bool
  allTriggeredModels : List String
  successCount : Nat
  fetches : List String
  saves : List (String × QuotaSnapshot)
  triggerCalls : List TriggerRequest
  activeSets : List String

/-- JS `Set.add`: append unless already present (insertion order kept). -/
def setInsert (l : List String) (x : String) : List String :=
  if l.contains x then l else l ++ [x]

/-- `modelsToTrigger.forEach(m => allTriggeredModels.add(m))`. -/
def setInsertAll (l : List String) (xs : List String) : List String :=
  xs.foldl setInsert l

/-- The inner loop of `detectResetAndTrigger` over `targetModels`: skip a
`modelId` already seen this pass, otherwise record it as seen and push it to
`modelsToTrigger` when `isModelUnused` holds.  Returns `modelsToTrigger`. -/
def modelsToTriggerOf (targetModels : List ModelQuotaInfo)
    (previousSnapshot : Option QuotaSnapshot) : List String :=
  (targetModels.foldl
    (fun acc model =>
      if acc.2.contains model.modelId then acc
      else
        ((if isModelUnused model previousSnapshot then acc.1 ++ [model.modelId] else acc.1),
          acc.2 ++ [model.modelId]))
    ([], [])).1

/-- The body of `detectResetAndTrigger`'s `for (const accountEmail of
accounts)` loop: set the account active, load its previous snapshot, fetch
its quota (a failed fetch is caught and ends the iteration), save the fresh
snapshot right away, filter to the selected models, collect the unused ones
(first occurrence per `modelId`), and when any exist mark the pass as
triggered, add the models to the global set and call `executeTrigger`
(a failed trigger is caught; a successful one with at least one per-model
success bumps `successCount`). -/
def processAccount (env : WakeupEnv) (config : WakeupConfig) (s : LoopState)
    (accountEmail : String) : LoopState :=
  let s0 := { s with activeSets := s.activeSets ++ [accountEmail] }
  let previousSnapshot := s0.store accountEmail
  match env.fetchQuota accountEmail with
  | Except.error _ => { s0 with fetches := s0.fetches ++ [accountEmail] }
  | Except.ok snapshot =>
    let s1 := { s0 with
      fetches := s0.fetches ++ [accountEmail],
      store := fun k => if k == accountEmail then some snapshot else s0.store k,
      saves := s0.saves ++ [(accountEmail, snapshot)] }
    let targetModels := snapshot.models.filter (fun m => config.selectedModels.contains m.modelId)
    let modelsToTrigger := modelsToTriggerOf targetModels previousSnapshot
    if modelsToTrigger = [] then s1
    else
      let s2 := { s1 with
        anyTriggered := true,
        allTriggeredModels := setInsertAll s1.allTriggeredModels modelsToTrigger }
      let req : TriggerRequest :=
        { models := modelsToTrigger, accountEmail := accountEmail,
          triggerType := "auto", triggerSource := "quota_reset",
          customPrompt := config.customPrompt, maxOutputTokens := config.maxOutputTokens }
      let s3 := { s2 with triggerCalls := s2.triggerCalls ++ [req] }
      match env.executeTrigger req with
      | Except.error _ => s3
      | Except.ok result =>
        if 0 < (result.results.filter (fun r => r.success)).length then
          { s3 with successCount := s3.successCount + 1 }
        else s3

/-- Everything `detectResetAndTrigger` has produced when it returns: the
`DetectionResult`, the final persisted store, and the effect traces. -/
structure DetectionOutcome where
  result : DetectionResult
  store : String → Option QuotaSnapshot
  fetches : List String
  saves : List (String × QuotaSnapshot)
  triggerCalls : List TriggerRequest
  activeSets : List String
  successCount : Nat

/-- The early-return value of `detectResetAndTrigger`
(`{ triggered: false, triggeredModels: [] }` with no effects performed). -/
def noopOutcome (env : WakeupEnv) : DetectionOutcome :=
  { result := { triggered := false, triggeredModels := [] },
    store := env.initialState, fetches := [], saves := [], triggerCalls := [],
    activeSets := [], successCount := 0 }

/-- `detectResetAndTrigger()` from `reset-detector.ts` over an explicit
environment: return the no-op result when the config is missing or disabled
or when `resolveAccounts` yields no account; otherwise run the per-account
loop and finally restore the original active account (when one existed)
before assembling the `DetectionResult` from `anyTriggered` and the
triggered-model set. -/
def detectResetAndTrigger (env : WakeupEnv) : DetectionOutcome :=
  match env.loadWakeupConfig with
  | none => noopOutcome env
  | some config =>
    if config.enabled = false then noopOutcome env
    else
      let accounts := env.resolveAccounts config.selectedAccounts
      if accounts.length = 0 then noopOutcome env
      else
        let init : LoopState :=
          { store := env.initialState, anyTriggered := false, allTriggeredModels := [],
            successCount := 0, fetches := [], saves := [], triggerCalls := [],
            activeSets := [] }
        let final := accounts.foldl (processAccount env config) init
        let final2 :=
          match env.originalActiveEmail with
          | some e => { final with activeSets := final.activeSets ++ [e] }
          | none => final
        { result := { triggered := final2.anyTriggered,
                      triggeredModels := final2.allTriggeredModels },
          store := final2.store, fetches := final2.fetches, saves := final2.saves,
          triggerCalls := final2.triggerCalls, activeSets := final2.activeSets,
          successCount := final2.successCount }

/-! ### Concrete inputs used by witnesses and counterexamples

The field values follow the fixtures of `test/wakeup/reset-detector.test.ts`
(`createModelInfo`, `createSnapshot`). -/

/-- A fully-unused model: 100% remaining, not exhausted, reset time present. -/
def mFull : ModelQuotaInfo :=
  { label := "Test Model", modelId := "test-model", remainingPercentage := some 1,
    isExhausted := false, resetTime := some "2026-02-23T20:00:00Z",
    timeUntilResetMs := some 18000000 }

/-- Like `mFull` but with the reset time moved one day later. -/
def mFullChanged : ModelQuotaInfo :=
  { label := "Test Model", modelId := "test-model", remainingPercentage := some 1,
    isExhausted := false, resetTime := some "2026-02-24T20:00:00Z",
    timeUntilResetMs := some 18000000 }

/-- A half-used model with a changed reset time (spec scenario for partial
usage overriding a reset-time change). -/
def mHalf : ModelQuotaInfo :=
  { label := "Test Model", modelId := "test-model", remainingPercentage := some (1 / 2),
    isExhausted := false, resetTime := some "2026-02-24T20:00:00Z",
    timeUntilResetMs := some 18000000 }

/-- A model with no quota data at all. -/
def mNoData : ModelQuotaInfo :=
  { label := "Test Model", modelId := "test-model", remainingPercentage := none,
    isExhausted := false, resetTime := some "2026-02-24T20:00:00Z",
    timeUntilResetMs := some 18000000 }

/-- An exhausted model that nevertheless reports full remaining quota. -/
def mExhaustedFull : ModelQuotaInfo :=
  { label := "Test Model", modelId := "test-model", remainingPercentage := some 1,
    isExhausted := true, resetTime := some "2026-02-24T20:00:00Z",
    timeUntilResetMs := some 18000000 }

/-- An exhausted model with zero remaining quota (the test-suite fixture). -/
def mExhaustedZero : ModelQuotaInfo :=
  { label := "Test Model", modelId := "test-model", remainingPercentage := some 0,
    isExhausted := true, resetTime := some "2026-02-24T20:00:00Z",
    timeUntilResetMs := some 18000000 }

/-- A previous snapshot recording `test-model` with reset time
`2026-02-23T20:00:00Z`. -/
def priorSnap : QuotaSnapshot :=
  { timestamp := "2026-02-23T10:00:00Z", method := "google", models := [mFull] }

/-- A fully-unused model under the id `m1`. -/
def mDupM1 : ModelQuotaInfo :=
  { label := "Test Model", modelId := "m1", remainingPercentage := some 1,
    isExhausted := false, resetTime := some "2026-02-24T20:00:00Z",
    timeUntilResetMs := some 18000000 }

/-- A snapshot holding two entries that share the `modelId` `m1`. -/
def snapDup : QuotaSnapshot :=
  { timestamp := "2026-02-24T10:00:00Z", method := "google", models := [mDupM1, mDupM1] }

/-- An environment whose wake-up config is missing entirely. -/
def envC8 : WakeupEnv :=
  { loadWakeupConfig := none,
    resolveAccounts := fun l => l,
    initialState := fun _ => none,
    fetchQuota := fun _ => Except.error "network",
    executeTrigger := fun _ => Except.error "network",
    originalActiveEmail := none }

/-- A snapshot whose only model is half used (nothing to trigger). -/
def snapHalf : QuotaSnapshot :=
  { timestamp := "2026-02-24T10:00:00Z", method := "google", models := [mHalf] }

/-- An enabled config selecting one account and the `test-model` id. -/
def configOneAccount : WakeupConfig :=
  { enabled := true, selectedAccounts := ["a@example.com"],
    selectedModels := ["test-model"], customPrompt := none, maxOutputTokens := none }

/-- An environment with one account whose fetch succeeds with `snapHalf`
and whose persisted prior state is empty. -/
def envOneAccount : WakeupEnv :=
  { loadWakeupConfig := some configOneAccount,
    resolveAccounts := fun l => l,
    initialState := fun _ => none,
    fetchQuota := fun _ => Except.ok snapHalf,
    executeTrigger := fun _ => Except.error "network",
    originalActiveEmail := none }

/-- Invariant of the per-account loop state behind claim C10: the pass is
marked triggered exactly when the triggered-model set is non-empty, and that
set holds no duplicates. -/
def triggerInv (s : LoopState) : Prop :=
  (s.anyTriggered = true ↔ s.allTriggeredModels ≠ []) ∧ s.allTriggeredModels.Nodup

/-! ### Claims about the unused-model predicate -/

/-- C1: for a model that passes the data checks (`remainingPercentage`
present and at or above the full-quota threshold, `resetTime` present, i.e.
a non-empty string) and whose `modelId` has a record in the prior snapshot,
`isModelUnused` returns `false` when the recorded reset time equals the
model's current `resetTime`, and `true` when it differs. -/
theorem c1_prior_record_reset_time_decides (model pm : ModelQuotaInfo)
    (ps : QuotaSnapshot) (p : ℚ) (rt : String)
    (hp : model.remainingPercentage = some p) (hge : FULL_QUOTA_THRESHOLD ≤ p)
    (hrt : model.resetTime = some rt) (hne : rt ≠ "")
    (hfind : ps.models.find? (fun m => m.modelId == model.modelId) = some pm) :
    (pm.resetTime = model.resetTime → isModelUnused model (some ps) = false) ∧
    (pm.resetTime ≠ model.resetTime → isModelUnused model (some ps) = true) := by
  constructor
  · intro h
    simp [isModelUnused, hp, not_lt.mpr hge, hrt, strOptTruthy, hne, hfind, h]
  · intro h
    simp [isModelUnused, hp, not_lt.mpr hge, hrt, strOptTruthy, hne, hfind]
    intro heq
    exact h (by rw [hrt]; exact heq.symm)

/-- Witness for C1 at the test-suite fixtures: same recorded reset time gives
`false`, a changed one gives `true`. -/
theorem c1_witness :
    isModelUnused mFull (some priorSnap) = false ∧
    isModelUnused mFullChanged (some priorSnap) = true :=
  ⟨(c1_prior_record_reset_time_decides mFull mFull priorSnap 1 "2026-02-23T20:00:00Z"
      rfl (by norm_num [FULL_QUOTA_THRESHOLD]) rfl (by decide) rfl).1 rfl,
    (c1_prior_record_reset_time_decides mFullChanged mFull priorSnap 1 "2026-02-24T20:00:00Z"
      rfl (by norm_num [FULL_QUOTA_THRESHOLD]) rfl (by decide) rfl).2 (by decide)⟩

/-- C2 counterexample: `isModelUnused` never reads `isExhausted`.  An
exhausted model that still reports full remaining quota and a fresh reset
time is flagged unused, contradicting the claim that exhausted models are
never flagged. -/
theorem c2_counterexample :
    mExhaustedFull.isExhausted = true ∧ isModelUnused mExhaustedFull none = true := by
  refine ⟨rfl, ?_⟩
  norm_num [isModelUnused, mExhaustedFull, strOptTruthy, FULL_QUOTA_THRESHOLD]
  all_goals decide

/-- C2 (amended): an exhausted model is not flagged unused provided its
`remainingPercentage` is absent or below the full-quota threshold (which is
how exhaustion manifests in practice); the code reaches this verdict through
the quota checks alone and never consults `isExhausted`. -/
theorem c2_exhausted_low_quota_not_unused (model : ModelQuotaInfo)
    (prev : Option QuotaSnapshot) (_hexh : model.isExhausted = true)
    (hlow : model.remainingPercentage = none ∨
      ∃ p, model.remainingPercentage = some p ∧ p < FULL_QUOTA_THRESHOLD) :
    isModelUnused model prev = false := by
  rcases hlow with h | ⟨p, hp, hlt⟩
  · simp [isModelUnused, h]
  · simp [isModelUnused, hp, hlt]

/-- Witness for the amended C2 at the exhausted test fixture
(`remainingPercentage: 0, isExhausted: true`). -/
theorem c2_witness :
    mExhaustedZero.isExhausted = true ∧ isModelUnused mExhaustedZero none = false :=
  ⟨rfl, c2_exhausted_low_quota_not_unused mExhaustedZero none rfl
    (Or.inr ⟨0, rfl, by norm_num [FULL_QUOTA_THRESHOLD]⟩)⟩

/-- C5: a model whose `remainingPercentage` is absent is never flagged
unused, whatever its other fields and whatever the prior state. -/
theorem c5_no_percentage_not_unused (model : ModelQuotaInfo)
    (prev : Option QuotaSnapshot) (h : model.remainingPercentage = none) :
    isModelUnused model prev = false := by
  simp [isModelUnused, h]

/-- Witness for C5 at the no-data fixture. -/
theorem c5_witness :
    mNoData.remainingPercentage = none ∧ isModelUnused mNoData none = false :=
  ⟨rfl, c5_no_percentage_not_unused mNoData none rfl⟩

/-- C6: a non-exhausted model at or above the full-quota threshold with a
(non-empty) reset time is flagged unused when no prior record exists for its
`modelId` — both when the prior state is absent (first run) and when the
prior snapshot simply has no entry with that id. -/
theorem c6_no_prior_record_unused (model : ModelQuotaInfo)
    (prev : Option QuotaSnapshot) (p : ℚ) (rt : String)
    (hp : model.remainingPercentage = some p) (hge : FULL_QUOTA_THRESHOLD ≤ p)
    (_hexh : model.isExhausted = false) (hrt : model.resetTime = some rt) (hne : rt ≠ "")
    (hprior : prev = none ∨ ∃ ps, prev = some ps ∧
      ps.models.find? (fun m => m.modelId == model.modelId) = none) :
    isModelUnused model prev = true := by
  rcases hprior with h | ⟨ps, hps, hfind⟩
  · subst h
    simp [isModelUnused, hp, not_lt.mpr hge, hrt, strOptTruthy, hne]
  · subst hps
    simp [isModelUnused, hp, not_lt.mpr hge, hrt, strOptTruthy, hne, hfind]

/-- Witness for C6 with an absent prior state. -/
theorem c6_witness :
    mFull.isExhausted = false ∧ isModelUnused mFull none = true :=
  ⟨rfl, c6_no_prior_record_unused mFull none 1 "2026-02-23T20:00:00Z" rfl
    (by norm_num [FULL_QUOTA_THRESHOLD]) rfl rfl (by decide) (Or.inl rfl)⟩

/-- C7: a model whose `remainingPercentage` is present but below the
full-quota threshold (0.99 as a fraction) is never flagged unused, whatever
the prior state — in particular even when its reset time differs from the
prior record. -/
theorem c7_partial_usage_not_unused (model : ModelQuotaInfo)
    (prev : Option QuotaSnapshot) (p : ℚ)
    (hp : model.remainingPercentage = some p) (hlt : p < FULL_QUOTA_THRESHOLD) :
    isModelUnused model prev = false := by
  simp [isModelUnused, hp, hlt]

/-- Witness for C7 at the spec scenario: 50% remaining, reset time changed
relative to the prior snapshot, still not unused. -/
theorem c7_witness :
    mHalf.remainingPercentage = some (1 / 2) ∧
    mHalf.resetTime ≠ mFull.resetTime ∧
    isModelUnused mHalf (some priorSnap) = false :=
  ⟨rfl, by decide,
    c7_partial_usage_not_unused mHalf (some priorSnap) (1 / 2) rfl
      (by norm_num [FULL_QUOTA_THRESHOLD])⟩

/-! ### Claims about the batch scan -/

/-- C3 counterexample: `findUnusedModels` is a plain filter and performs no
`modelId` deduplication — a snapshot holding two unused entries that share
`modelId = "m1"` yields both of them, not at most one. -/
theorem c3_counterexample :
    (findUnusedModels snapDup none).map (fun m => m.modelId) = ["m1", "m1"] := by
  have hu : isModelUnused mDupM1 none = true := by
    norm_num [isModelUnused, mDupM1, strOptTruthy, FULL_QUOTA_THRESHOLD]
    all_goals decide
  simp [findUnusedModels, snapDup, List.filter_cons, hu]
  all_goals decide

/-- C3 (amended): `findUnusedModels` returns exactly the snapshot entries
satisfying the unused predicate, in snapshot order, with no deduplication:
membership is equivalent to being an unused snapshot entry, and each entry's
multiplicity is fully preserved (so duplicates sharing one `modelId` all
appear). -/
theorem c3_filter_characterization (snapshot : QuotaSnapshot)
    (prev : Option QuotaSnapshot) :
    (findUnusedModels snapshot prev).Sublist snapshot.models ∧
    (∀ m : ModelQuotaInfo, m ∈ findUnusedModels snapshot prev ↔
      m ∈ snapshot.models ∧ isModelUnused m prev = true) ∧
    (∀ m : ModelQuotaInfo, (findUnusedModels snapshot prev).count m =
      if isModelUnused m prev = true then snapshot.models.count m else 0) := by
  refine ⟨List.filter_sublist _, fun m => by simp [findUnusedModels, List.mem_filter],
    fun m => ?_⟩
  by_cases h : isModelUnused m prev = true
  · rw [if_pos h, findUnusedModels]
    exact List.count_filter h
  · rw [if_neg h, List.count_eq_zero]
    intro hmem
    exact h ((List.mem_filter.mp hmem).2)

/-- C4: `hasUnusedModels` holds exactly when `findUnusedModels` returns a
non-empty list on the same inputs. -/
theorem c4_has_iff_find_nonempty (snapshot : QuotaSnapshot)
    (prev : Option QuotaSnapshot) :
    hasUnusedModels snapshot prev = true ↔ findUnusedModels snapshot prev ≠ [] := by
  rw [hasUnusedModels, findUnusedModels, List.any_eq_true, Ne,
    List.filter_eq_nil_iff]
  push_neg
  simp

/-! ### Helper lemmas about the per-account loop -/

lemma setInsert_ne_nil (l : List String) (x : String) : setInsert l x ≠ [] := by
  unfold setInsert
  split
  · rename_i hc
    intro h
    subst h
    simp at hc
  · simp

lemma setInsert_nodup {l : List String} (x : String) (h : l.Nodup) :
    (setInsert l x).Nodup := by
  unfold setInsert
  split
  · exact h
  · rename_i hc
    rw [List.nodup_append]
    refine ⟨h, List.nodup_singleton x, ?_⟩
    intro a ha hax
    rw [List.mem_singleton] at hax
    subst hax
    simp at hc
    exact hc ha

lemma setInsertAll_nodup {l : List String} (xs : List String) (h : l.Nodup) :
    (setInsertAll l xs).Nodup := by
  induction xs generalizing l with
  | nil => exact h
  | cons x t ih => exact ih (setInsert_nodup x h)

lemma setInsertAll_ne_nil_of_ne {l : List String} (xs : List String) (h : l ≠ []) :
    setInsertAll l xs ≠ [] := by
  induction xs generalizing l with
  | nil => exact h
  | cons x t ih => exact ih (setInsert_ne_nil l x)

lemma setInsertAll_cons_ne_nil (l : List String) (x : String) (t : List String) :
    setInsertAll l (x :: t) ≠ [] :=
  setInsertAll_ne_nil_of_ne t (setInsert_ne_nil l x)

lemma processAccount_triggerInv (env : WakeupEnv) (config : WakeupConfig)
    (a : String) {s : LoopState} (h : triggerInv s) :
    triggerInv (processAccount env config s a) := by
  unfold processAccount
  cases env.fetchQuota a with
  | error e => exact h
  | ok snapshot =>
    dsimp only
    split
    · exact h
    · rename_i hmts
      have hinv : ∀ t : LoopState,
          t.anyTriggered = true →
          t.allTriggeredModels = setInsertAll s.allTriggeredModels
            (modelsToTriggerOf
              (snapshot.models.filter (fun m => config.selectedModels.contains m.modelId))
              (s.store a)) →
          triggerInv t := by
        intro t ht hm
        constructor
        · rw [ht, hm]
          rcases hq : modelsToTriggerOf
              (snapshot.models.filter (fun m => config.selectedModels.contains m.modelId))
              (s.store a) with _ | ⟨x, xs⟩
          · exact absurd hq hmts
          · simp [setInsertAll_cons_ne_nil]
        · rw [hm]
          exact setInsertAll_nodup _ h.2
      split
      · exact hinv _ rfl rfl
      · split
        · exact hinv _ rfl rfl
        · exact hinv _ rfl rfl

lemma foldl_triggerInv (env : WakeupEnv) (config : WakeupConfig)
    (accounts : List String) {s : LoopState} (h : triggerInv s) :
    triggerInv (accounts.foldl (processAccount env config) s) := by
  induction accounts generalizing s with
  | nil => exact h
  | cons a t ih => exact ih (processAccount_triggerInv env config a h)

lemma processAccount_saves (env : WakeupEnv) (config : WakeupConfig)
    (s : LoopState) (a : String) :
    (processAccount env config s a).saves = s.saves ++
      (match env.fetchQuota a with
       | Except.ok snap => [(a, snap)]
       | Except.error _ => []) := by
  unfold processAccount
  cases env.fetchQuota a with
  | error e => simp
  | ok snapshot =>
    dsimp only
    split
    · rfl
    · split
      · rfl
      · split
        · rfl
        · rfl

lemma foldl_saves (env : WakeupEnv) (config : WakeupConfig)
    (accounts : List String) (s : LoopState) :
    (accounts.foldl (processAccount env config) s).saves =
      s.saves ++ accounts.filterMap (fun a =>
        match env.fetchQuota a with
        | Except.ok snap => some (a, snap)
        | Except.error _ => none) := by
  induction accounts generalizing s with
  | nil => simp
  | cons a t ih =>
    rw [List.foldl_cons, ih, processAccount_saves, List.filterMap_cons]
    cases env.fetchQuota a <;> simp

/-! ### Claims about the orchestration pass -/

/-- C8: when the wake-up config is missing or disabled, or the resolved
account set is empty, `detectResetAndTrigger` returns the no-op result
`{ triggered: false, triggeredModels: [] }` with no quota fetch, no state
save, no trigger call, and the persisted store untouched. -/
theorem c8_disabled_or_no_accounts_noop (env : WakeupEnv)
    (h : ∀ c, env.loadWakeupConfig = some c →
      c.enabled = false ∨ env.resolveAccounts c.selectedAccounts = []) :
    (detectResetAndTrigger env).result.triggered = false ∧
    (detectResetAndTrigger env).result.triggeredModels = [] ∧
    (detectResetAndTrigger env).fetches = [] ∧
    (detectResetAndTrigger env).saves = [] ∧
    (detectResetAndTrigger env).triggerCalls = [] ∧
    (detectResetAndTrigger env).store = env.initialState := by
  have hd : detectResetAndTrigger env = noopOutcome env := by
    unfold detectResetAndTrigger
    cases hc : env.loadWakeupConfig with
    | none => rfl
    | some c =>
      dsimp only
      by_cases hen : c.enabled = false
      · rw [if_pos hen]
      · rcases h c hc with he | ha
        · exact absurd he hen
        · rw [if_neg hen, if_pos (by rw [ha]; rfl)]
  rw [hd]
  exact ⟨rfl, rfl, rfl, rfl, rfl, rfl⟩

/-- Witness for C8: the environment with no config at all yields the no-op
outcome. -/
theorem c8_witness :
    envC8.loadWakeupConfig = none ∧
    (detectResetAndTrigger envC8).result.triggered = false ∧
    (detectResetAndTrigger envC8).fetches = [] := by
  have h := c8_disabled_or_no_accounts_noop envC8
    (fun c hc => by simp [envC8] at hc)
  exact ⟨rfl, h.1, h.2.2.1⟩

/-- C9 counterexample: a pass that flags nothing still overwrites the
persisted prior state.  With one account whose fetch yields only a half-used
model, the pass triggers nothing, yet `saveWakeupState` was called with the
full fresh snapshot and the stored state for that account changed from
empty to that snapshot. -/
theorem c9_counterexample :
    (detectResetAndTrigger envOneAccount).result.triggered = false ∧
    (detectResetAndTrigger envOneAccount).triggerCalls = [] ∧
    (detectResetAndTrigger envOneAccount).saves = [("a@example.com", snapHalf)] ∧
    (detectResetAndTrigger envOneAccount).store "a@example.com" = some snapHalf ∧
    envOneAccount.initialState "a@example.com" = none := by
  have hmu : isModelUnused mHalf none = false := by
    norm_num [isModelUnused, mHalf, strOptTruthy, FULL_QUOTA_THRESHOLD]
  refine ⟨?_, ?_, ?_, ?_, rfl⟩ <;>
  · simp [detectResetAndTrigger, envOneAccount, configOneAccount, noopOutcome,
      processAccount, modelsToTriggerOf, snapHalf, mHalf, hmu, setInsertAll,
      setInsert]
    norm_num [isModelUnused, strOptTruthy, FULL_QUOTA_THRESHOLD]

/-- C9 (amended): the persisted prior state is written unconditionally: one
save per resolved account whose quota fetch succeeds, performed right after
the fetch and before unused-model detection, storing the full fresh snapshot
— independently of whether any model is flagged unused.  A pass therefore
overwrites the stored state even when it flags nothing. -/
theorem c9_state_saved_unconditionally (env : WakeupEnv) (config : WakeupConfig)
    (h1 : env.loadWakeupConfig = some config) (h2 : config.enabled = true)
    (h3 : env.resolveAccounts config.selectedAccounts ≠ []) :
    (detectResetAndTrigger env).saves =
      (env.resolveAccounts config.selectedAccounts).filterMap (fun a =>
        match env.fetchQuota a with
        | Except.ok snap => some (a, snap)
        | Except.error _ => none) := by
  unfold detectResetAndTrigger
  rw [h1]
  dsimp only
  rw [if_neg (by simp [h2])]
  rw [if_neg (fun hlen => h3 (List.length_eq_zero.mp hlen))]
  cases env.originalActiveEmail with
  | none =>
    dsimp only
    rw [foldl_saves]
    rfl
  | some e =>
    dsimp only
    rw [foldl_saves]
    rfl

/-- Witness for the amended C9 at the one-account environment. -/
theorem c9_witness :
    envOneAccount.loadWakeupConfig = some configOneAccount ∧
    configOneAccount.enabled = true ∧
    envOneAccount.resolveAccounts configOneAccount.selectedAccounts = ["a@example.com"] ∧
    (detectResetAndTrigger envOneAccount).saves = [("a@example.com", snapHalf)] := by
  refine ⟨rfl, rfl, rfl, ?_⟩
  rw [c9_state_saved_unconditionally envOneAccount configOneAccount rfl rfl
    (by simp [envOneAccount, configOneAccount])]
  rfl

/-- C10: the `DetectionResult` of `detectResetAndTrigger` always satisfies
`triggered = true` exactly when `triggeredModels` is non-empty, and
`triggeredModels` never holds duplicate model ids (it is accumulated in a
set even across accounts). -/
theorem c10_result_invariant (env : WakeupEnv) :
    ((detectResetAndTrigger env).result.triggered = true ↔
      (detectResetAndTrigger env).result.triggeredModels ≠ []) ∧
    (detectResetAndTrigger env).result.triggeredModels.Nodup := by
  unfold detectResetAndTrigger
  cases env.loadWakeupConfig with
  | none => simp [noopOutcome]
  | some config =>
    dsimp only
    split
    · simp [noopOutcome]
    · split
      · simp [noopOutcome]
      · have h := @foldl_triggerInv env config
          (env.resolveAccounts config.selectedAccounts)
          { store := env.initialState, anyTriggered := false,
            allTriggeredModels := [], successCount := 0, fetches := [],
            saves := [], triggerCalls := [], activeSets := [] }
          ⟨by simp, List.nodup_nil⟩
        cases env.originalActiveEmail with
        | none => exact ⟨h.1, h.2⟩
        | some e => exact ⟨h.1, h.2⟩

end AntigravityUsage
